import Mathlib

/-!
Shallow embedding of the `gomcpserver/jira` MCP server (`src/main.go`).

The program is a thin adapter: four Jira REST operations (get issue, JQL
search, add comment, create issue) exposed as MCP tools.  Each client
method performs exactly one HTTP round trip; we embed an operation as a
pure `Operation` value holding the single request it builds together with
a pure response handler (`HTTPResponse → Except String α`).

Go strings are byte strings; `url.PathEscape`, `url.QueryEscape` and
`base64.StdEncoding` operate on the UTF-8 bytes, so we model a string's
byte view explicitly (`strBytes`) and translate those stdlib routines
byte-for-byte from the Go sources.  Go `int` is modeled as `Int` (the
embedded code only compares, never overflows).  JSON marshalling of the
fixed map shapes is modeled by keeping request bodies as `Json` values;
JSON decoding of response bodies (an external stdlib decoder) is passed
in as a function parameter, as is `url.ParseRequestURI` validity.
-/

namespace JiraMCP

/-- JSON values, used to model the outbound request bodies built by
`json.Marshal` on the fixed `map` shapes in `main.go`. -/
inductive Json where
  | null : Json
  | bool : Bool → Json
  | num : Int → Json
  | str : String → Json
  | arr : List Json → Json
  | obj : List (String × Json) → Json
deriving Repr, BEq

/-- `JiraIssue` from `main.go`: id, key, self link and an open-ended
field map (the decoded shape; population is up to the remote decoder). -/
structure JiraIssue where
  id : String
  key : String
  self : String
  fields : List (String × Json)
deriving Repr, BEq

/-- `JiraSearchResult` from `main.go`. -/
structure JiraSearchResult where
  startAt : Int
  maxResults : Int
  total : Int
  issues : List JiraIssue
deriving Repr, BEq

/-- UTF-8 encoding of one character, the byte view Go strings expose. -/
def utf8Bytes (c : Char) : List Nat :=
  let n := c.toNat
  if n < 0x80 then [n]
  else if n < 0x800 then [0xC0 + n / 64, 0x80 + n % 64]
  else if n < 0x10000 then [0xE0 + n / 4096, 0x80 + (n / 64) % 64, 0x80 + n % 64]
  else [0xF0 + n / 262144, 0x80 + (n / 4096) % 64, 0x80 + (n / 64) % 64, 0x80 + n % 64]

/-- The UTF-8 bytes of a string (Go's byte view of a `string`). -/
def strBytes (s : String) : List Nat :=
  (s.toList.map utf8Bytes).flatten

/-- ASCII letter or digit, first test of Go `net/url.shouldEscape`. -/
def isAlnumByte (b : Nat) : Bool :=
  (0x61 ≤ b && b ≤ 0x7a) || (0x41 ≤ b && b ≤ 0x5a) || (0x30 ≤ b && b ≤ 0x39)

/-- Go `net/url.shouldEscape` in `encodePathSegment` mode: unreserved
bytes and the reserved `$ & + : = @` stay, `/ ; , ?` and all others are
escaped. -/
def shouldEscapePathSegment (b : Nat) : Bool :=
  if isAlnumByte b then false
  else if b == 0x2d || b == 0x5f || b == 0x2e || b == 0x7e then false
  else if b == 0x24 || b == 0x26 || b == 0x2b || b == 0x3a || b == 0x3d || b == 0x40 then false
  else true

/-- Go `net/url.shouldEscape` in `encodeQueryComponent` mode: only
unreserved bytes stay (space is handled separately by `escape`). -/
def shouldEscapeQueryComponent (b : Nat) : Bool :=
  if isAlnumByte b then false
  else if b == 0x2d || b == 0x5f || b == 0x2e || b == 0x7e then false
  else true

/-- Upper-case hexadecimal digit, as used by Go `net/url.escape`. -/
def hexDigit (n : Nat) : Char :=
  if n < 10 then Char.ofNat (0x30 + n)
  else Char.ofNat (0x41 + (n - 10))

/-- Percent-encoding of one byte. -/
def percentByte (b : Nat) : List Char :=
  ['%', hexDigit (b / 16), hexDigit (b % 16)]

/-- One byte under Go `url.PathEscape`. -/
def pathEscapeByte (b : Nat) : List Char :=
  if shouldEscapePathSegment b then percentByte b else [Char.ofNat b]

/-- One byte under Go `url.QueryEscape` (space becomes a plus sign). -/
def queryEscapeByte (b : Nat) : List Char :=
  if b == 0x20 then ['+']
  else if shouldEscapeQueryComponent b then percentByte b else [Char.ofNat b]

/-- Go `url.PathEscape`. -/
def pathEscape (s : String) : String :=
  String.mk ((strBytes s).map pathEscapeByte).flatten

/-- Go `url.QueryEscape`. -/
def queryEscape (s : String) : String :=
  String.mk ((strBytes s).map queryEscapeByte).flatten

/-- The standard base64 alphabet of Go `base64.StdEncoding`. -/
def base64Alphabet : List Char :=
  "ABCDEFGHIJKLMNOPQRSTUVWXYZabcdefghijklmnopqrstuvwxyz0123456789+/".toList

/-- Character for a 6-bit group. -/
def b64char (n : Nat) : Char := base64Alphabet.getD n 'A'

/-- Go `base64.StdEncoding.EncodeToString` on a byte list (standard
padding). -/
def base64EncodeBytes : List Nat → List Char
  | [] => []
  | [a] => [b64char (a / 4), b64char (a % 4 * 16), '=', '=']
  | [a, b] => [b64char (a / 4), b64char (a % 4 * 16 + b / 16), b64char (b % 16 * 4), '=']
  | a :: b :: c :: rest =>
      [b64char (a / 4), b64char (a % 4 * 16 + b / 16),
       b64char (b % 16 * 4 + c / 64), b64char (c % 64)] ++ base64EncodeBytes rest

/-- `base64.StdEncoding.EncodeToString([]byte(s))`. -/
def base64Encode (s : String) : String :=
  String.mk (base64EncodeBytes (strBytes s))

/-- Go `strings.TrimRight(s, "/")`: every trailing slash removed. -/
def trimRightSlash (s : String) : String :=
  String.mk ((s.toList.reverse.dropWhile (· == '/')).reverse)

/-- `JiraClient` from `main.go`.  `timeoutSeconds` records the
`http.Client{Timeout: 30 * time.Second}` the constructor installs; every
request built through this client carries it. -/
structure JiraClient where
  BaseURL : String
  Auth : String
  timeoutSeconds : Nat
deriving Repr, BEq

/-- The fixed message of the missing-configuration error in
`NewJiraClientFromEnv`. -/
def missingConfigMsg : String :=
  "JIRA_INSTANCE_URL, JIRA_USER_EMAIL, JIRA_API_TOKEN must be set"

/-- `NewJiraClientFromEnv` from `main.go`.  The three strings are the
values of `JIRA_INSTANCE_URL`, `JIRA_USER_EMAIL`, `JIRA_API_TOKEN`;
`validURI` abstracts the stdlib `url.ParseRequestURI` succeeding. -/
def NewJiraClientFromEnv (validURI : String → Bool) (instanceURL email token : String) :
    Except String JiraClient :=
  if trimRightSlash instanceURL = "" ∨ email = "" ∨ token = "" then
    .error missingConfigMsg
  else if ¬ validURI (trimRightSlash instanceURL) then
    .error "invalid JIRA_INSTANCE_URL"
  else
    .ok { BaseURL := trimRightSlash instanceURL
        , Auth := "Basic " ++ base64Encode (email ++ ":" ++ token)
        , timeoutSeconds := 30 }

/-- An outbound HTTP request as `doJSON` builds it: method, full URL,
headers, optional JSON body, and the owning client's timeout. -/
structure HTTPRequest where
  method : String
  url : String
  headers : List (String × String)
  body : Option Json
  timeoutSeconds : Nat
deriving Repr, BEq

/-- An HTTP response as `doJSON` consumes it: numeric status code, the
status text (`resp.Status`, e.g. "404 Not Found") and the body text. -/
structure HTTPResponse where
  statusCode : Nat
  status : String
  body : String
deriving Repr, BEq

/-- Request construction inside `doJSON`: URL is base plus path,
`Authorization` and `Accept` always set, `Content-Type` only when a body
is present. -/
def buildRequest (c : JiraClient) (method path : String) (body : Option Json) : HTTPRequest :=
  { method := method
  , url := c.BaseURL ++ path
  , headers :=
      [("Authorization", c.Auth), ("Accept", "application/json")] ++
        (match body with
         | some _ => [("Content-Type", "application/json")]
         | none => [])
  , body := body
  , timeoutSeconds := c.timeoutSeconds }

/-- The error `doJSON` synthesizes for a status ≥ 300:
`fmt.Errorf("jira %s %s failed: %s - %s", method, path, resp.Status, body)`. -/
def remoteErrMsg (method path : String) (resp : HTTPResponse) : String :=
  "jira " ++ method ++ " " ++ path ++ " failed: " ++ resp.status ++ " - " ++ resp.body

/-- Response handling in `doJSON` when `out` is non-nil: remote error on
status ≥ 300, otherwise the decoder runs on the body. -/
def respondDecoded {α : Type} (method path : String) (dec : String → Except String α)
    (resp : HTTPResponse) : Except String α :=
  if 300 ≤ resp.statusCode then .error (remoteErrMsg method path resp)
  else dec resp.body

/-- Response handling in `doJSON` when `out` is nil (`AddComment`): the
body is never decoded, status alone decides. -/
def respondNoBody (method path : String) (resp : HTTPResponse) : Except String Unit :=
  if 300 ≤ resp.statusCode then .error (remoteErrMsg method path resp)
  else .ok ()

/-- One client operation: the single HTTP request it performs and the
pure handler for the response. -/
structure Operation (α : Type) where
  request : HTTPRequest
  respond : HTTPResponse → Except String α

/-- The request path of `GetIssue`. -/
def issuePath (key : String) : String :=
  "/rest/api/3/issue/" ++ pathEscape key

/-- The request path of `AddComment`. -/
def commentPath (key : String) : String :=
  "/rest/api/3/issue/" ++ pathEscape key ++ "/comment"

/-- The clamp in `Search`: values ≤ 0 or > 1000 are replaced by 50. -/
def clampMax (max : Int) : Int :=
  if max ≤ 0 ∨ 1000 < max then 50 else max

/-- The request path of `Search`, including the query string produced by
`url.Values.Encode` (keys sorted: `jql` before `maxResults`, values
query-escaped; `fmt.Sprintf("%d", max)` renders the clamped value). -/
def searchPath (jql : String) (max : Int) : String :=
  "/rest/api/3/search?" ++
    "jql=" ++ queryEscape jql ++ "&maxResults=" ++ queryEscape (toString (clampMax max))

/-- `JiraClient.GetIssue`: one GET to `/rest/api/3/issue/<escaped key>`,
no body, decoded result returned unchanged. -/
def JiraClient.GetIssue (c : JiraClient) (key : String)
    (dec : String → Except String JiraIssue) : Operation JiraIssue :=
  { request := buildRequest c "GET" (issuePath key) none
  , respond := respondDecoded "GET" (issuePath key) dec }

/-- `JiraClient.Search`: one GET to `/rest/api/3/search?...`, the page
size clamped, no body, decoded result returned unchanged. -/
def JiraClient.Search (c : JiraClient) (jql : String) (max : Int)
    (dec : String → Except String JiraSearchResult) : Operation JiraSearchResult :=
  { request := buildRequest c "GET" (searchPath jql max) none
  , respond := respondDecoded "GET" (searchPath jql max) dec }

/-- `JiraClient.AddComment`: one POST with body `{"body": body}` (the
`map[string]string` literal in the source), no response decoding. -/
def JiraClient.AddComment (c : JiraClient) (key body : String) : Operation Unit :=
  { request := buildRequest c "POST" (commentPath key) (some (Json.obj [("body", Json.str body)]))
  , respond := respondNoBody "POST" (commentPath key) }

/-- The nested payload `CreateIssue` marshals (source literal order;
Go maps are unordered, so field facts are stated via lookup). -/
def createIssuePayload (projectKey issueType summary description : String) : Json :=
  Json.obj
    [("fields", Json.obj
      [ ("project", Json.obj [("key", Json.str projectKey)])
      , ("summary", Json.str summary)
      , ("description", Json.str description)
      , ("issuetype", Json.obj [("name", Json.str issueType)]) ])]

/-- `JiraClient.CreateIssue`: one POST to `/rest/api/3/issue` with the
nested fields payload, decoded created issue returned unchanged. -/
def JiraClient.CreateIssue (c : JiraClient) (projectKey issueType summary description : String)
    (dec : String → Except String JiraIssue) : Operation JiraIssue :=
  { request := buildRequest c "POST" "/rest/api/3/issue"
      (some (createIssuePayload projectKey issueType summary description))
  , respond := respondDecoded "POST" "/rest/api/3/issue" dec }

/-- A tool handler's successful result: plain text or structured data,
mirroring `mcp.CallToolResult` as the four handlers populate it. -/
inductive ToolResult where
  | text : String → ToolResult
  | structuredIssue : JiraIssue → ToolResult
  | structuredSearch : JiraSearchResult → ToolResult
deriving Repr, BEq

/-- `get_issue` arguments. -/
structure GetIssueArgs where
  key : String

/-- `search_issues` arguments; an absent `max_results` decodes to Go's
zero value 0. -/
structure SearchArgs where
  jql : String
  maxResults : Int := 0

/-- `add_comment` arguments. -/
structure AddCommentArgs where
  key : String
  body : String

/-- `create_issue` arguments; an absent `description` decodes to Go's
zero value "". -/
structure CreateIssueArgs where
  projectKey : String
  issueType : String
  summary : String
  description : String := ""

/-- The `get_issue` handler: forwards the key, returns the client error
unchanged or wraps the issue as structured content. -/
def getIssueHandler (c : JiraClient) (args : GetIssueArgs)
    (dec : String → Except String JiraIssue) (resp : HTTPResponse) : Except String ToolResult :=
  match (c.GetIssue args.key dec).respond resp with
  | .error e => .error e
  | .ok iss => .ok (ToolResult.structuredIssue iss)

/-- The `search_issues` handler. -/
def searchIssuesHandler (c : JiraClient) (args : SearchArgs)
    (dec : String → Except String JiraSearchResult) (resp : HTTPResponse) :
    Except String ToolResult :=
  match (c.Search args.jql args.maxResults dec).respond resp with
  | .error e => .error e
  | .ok res => .ok (ToolResult.structuredSearch res)

/-- The `add_comment` handler: on success the result is the literal
text "ok". -/
def addCommentHandler (c : JiraClient) (args : AddCommentArgs) (resp : HTTPResponse) :
    Except String ToolResult :=
  match (c.AddComment args.key args.body).respond resp with
  | .error e => .error e
  | .ok _ => .ok (ToolResult.text "ok")

/-- The `create_issue` handler. -/
def createIssueHandler (c : JiraClient) (args : CreateIssueArgs)
    (dec : String → Except String JiraIssue) (resp : HTTPResponse) : Except String ToolResult :=
  match (c.CreateIssue args.projectKey args.issueType args.summary args.description dec).respond resp with
  | .error e => .error e
  | .ok iss => .ok (ToolResult.structuredIssue iss)

/-- What `main` does before serving: construct the client or die with
`log.Fatalf("init error: %v", err)` without ever registering tools. -/
inductive MainBehavior where
  | fatalInit : String → MainBehavior
  | serve : JiraClient → MainBehavior
deriving Repr, BEq

/-- Startup control flow of `main`. -/
def mainStartup (validURI : String → Bool) (instanceURL email token : String) : MainBehavior :=
  match NewJiraClientFromEnv validURI instanceURL email token with
  | .error msg => .fatalInit ("init error: " ++ msg)
  | .ok c => .serve c

/-- `sub` occurs as a contiguous substring of `s`. -/
def containsStr (s sub : String) : Prop :=
  ∃ p q, s = p ++ sub ++ q

/-- The shared request contract of `doJSON`: cached authorization value,
JSON accept header, the 30-second client timeout, and a JSON
content-type exactly when the request carries a body. -/
def requestInvariant (auth : String) (r : HTTPRequest) : Prop :=
  r.headers.lookup "Authorization" = some auth
  ∧ r.headers.lookup "Accept" = some "application/json"
  ∧ r.timeoutSeconds = 30
  ∧ r.headers.lookup "Content-Type" =
      (if r.body.isSome then some "application/json" else none)

/-- A concrete client for instantiating the theorems. -/
def sampleClient : JiraClient :=
  { BaseURL := "https://x.net", Auth := "Basic abc", timeoutSeconds := 30 }

/-- A concrete decoded issue. -/
def sampleIssue : JiraIssue :=
  { id := "1", key := "K-1", self := "https://x.net/i/1", fields := [("a", Json.num 2)] }

/-- A concrete decoded search result. -/
def sampleSearch : JiraSearchResult :=
  { startAt := 0, maxResults := 50, total := 1, issues := [sampleIssue] }

/-- A concrete issue decoder. -/
def sampleDecIssue : String → Except String JiraIssue := fun _ => .ok sampleIssue

/-- A concrete search-result decoder. -/
def sampleDecSearch : String → Except String JiraSearchResult := fun _ => .ok sampleSearch

/-- A concrete failing response. -/
def sampleResp404 : HTTPResponse :=
  { statusCode := 404, status := "404 Not Found", body := "no issue" }

/-- A concrete successful response. -/
def sampleResp200 : HTTPResponse :=
  { statusCode := 200, status := "200 OK", body := "irrelevant" }

end JiraMCP

namespace JiraMCP

/-! ### Helper lemmas -/

theorem digitChar_digit : ∀ m < 10, 48 ≤ (Nat.digitChar m).toNat ∧ (Nat.digitChar m).toNat ≤ 57 := by
  decide

theorem toDigitsCore_digit (fuel : Nat) : ∀ (n : Nat) (ds : List Char),
    (∀ c ∈ ds, 48 ≤ c.toNat ∧ c.toNat ≤ 57) →
    ∀ c ∈ Nat.toDigitsCore 10 fuel n ds, 48 ≤ c.toNat ∧ c.toNat ≤ 57 := by
  induction fuel with
  | zero =>
    intro n ds h c hc
    simp only [Nat.toDigitsCore] at hc
    exact h c hc
  | succ fuel ih =>
    intro n ds h c hc
    simp only [Nat.toDigitsCore] at hc
    split at hc
    · rcases List.mem_cons.mp hc with rfl | hmem
      · exact digitChar_digit _ (Nat.mod_lt _ (by norm_num))
      · exact h _ hmem
    · refine ih _ _ (fun d hd => ?_) c hc
      rcases List.mem_cons.mp hd with rfl | hmem
      · exact digitChar_digit _ (Nat.mod_lt _ (by norm_num))
      · exact h _ hmem

theorem repr_digit (n : Nat) : ∀ c ∈ (Nat.repr n).toList, 48 ≤ c.toNat ∧ c.toNat ≤ 57 := by
  intro c hc
  exact toDigitsCore_digit (n + 1) n [] (by simp) c hc

theorem toString_int_nonneg_digit (i : Int) (h : 0 ≤ i) :
    ∀ c ∈ (toString i).toList, 48 ≤ c.toNat ∧ c.toNat ≤ 57 := by
  obtain ⟨n, rfl⟩ := Int.eq_ofNat_of_zero_le h
  exact repr_digit n

theorem queryEscapeByte_digit (b : Nat) (h1 : 48 ≤ b) (h2 : b ≤ 57) :
    queryEscapeByte b = [Char.ofNat b] := by
  interval_cases b <;> rfl

theorem queryEscape_digit_chars : ∀ cs : List Char,
    (∀ c ∈ cs, 48 ≤ c.toNat ∧ c.toNat ≤ 57) →
    (((cs.map utf8Bytes).flatten).map queryEscapeByte).flatten = cs
  | [], _ => rfl
  | c :: cs, h => by
    obtain ⟨h1, h2⟩ := h c (List.mem_cons_self c cs)
    have hb : utf8Bytes c = [c.toNat] := by
      simp only [utf8Bytes]
      rw [if_pos (by omega)]
    simp only [List.map_cons, List.flatten_cons, hb, List.singleton_append, List.map_cons,
      List.flatten_cons, queryEscapeByte_digit c.toNat h1 h2, Char.ofNat_toNat,
      List.singleton_append]
    exact congrArg (c :: ·) (queryEscape_digit_chars cs (fun d hd => h d (List.mem_cons_of_mem c hd)))

theorem queryEscape_digit_string (s : String)
    (h : ∀ c ∈ s.toList, 48 ≤ c.toNat ∧ c.toNat ≤ 57) : queryEscape s = s := by
  cases s with
  | mk cs => exact congrArg String.mk (queryEscape_digit_chars cs h)

theorem clampMax_range (max : Int) : 1 ≤ clampMax max ∧ clampMax max ≤ 1000 := by
  unfold clampMax
  split <;> omega

theorem queryEscape_clampMax (max : Int) :
    queryEscape (toString (clampMax max)) = toString (clampMax max) :=
  queryEscape_digit_string _ (toString_int_nonneg_digit _ (by have := clampMax_range max; omega))

end JiraMCP
namespace JiraMCP

/-- C1: `Search` clamps `maxResults`: arguments ≤ 0 or > 1000 are sent as 50,
arguments in [1,1000] are sent unchanged; no input is rejected. -/
theorem search_maxResults_clamped (c : JiraClient) (jql : String) (max : Int)
    (dec : String → Except String JiraSearchResult) :
    ((max ≤ 0 ∨ 1000 < max) →
      (c.Search jql max dec).request.url =
        c.BaseURL ++ "/rest/api/3/search?jql=" ++ queryEscape jql ++ "&maxResults=50")
  ∧ (1 ≤ max → max ≤ 1000 →
      (c.Search jql max dec).request.url =
        c.BaseURL ++ "/rest/api/3/search?jql=" ++ queryEscape jql ++
          "&maxResults=" ++ toString max) := by
  constructor
  · intro h
    have hc : clampMax max = 50 := by
      unfold clampMax
      rw [if_pos h]
    show c.BaseURL ++ searchPath jql max = _
    rw [searchPath, hc]
    rw [show ("&maxResults=50" : String) = "&maxResults=" ++ "50" from rfl]
    rw [show queryEscape (toString (50 : Int)) = "50" from rfl]
    rw [show ("/rest/api/3/search?jql=" : String) = "/rest/api/3/search?" ++ "jql=" from rfl]
    simp only [String.append_assoc]
  · intro h1 h2
    have hc : clampMax max = max := by
      unfold clampMax
      rw [if_neg (by omega)]
    show c.BaseURL ++ searchPath jql max = _
    rw [searchPath, hc, queryEscape_digit_string _ (toString_int_nonneg_digit _ (by omega))]
    rw [show ("/rest/api/3/search?jql=" : String) = "/rest/api/3/search?" ++ "jql=" from rfl]
    simp only [String.append_assoc]

/-- C1 witness: concrete out-of-range (0) and in-range (7) page sizes. -/
theorem search_maxResults_clamped_witness :
    ((sampleClient.Search "a b" 0 sampleDecSearch).request.url =
      sampleClient.BaseURL ++ "/rest/api/3/search?jql=" ++ queryEscape "a b" ++ "&maxResults=50")
  ∧ ((sampleClient.Search "a b" 7 sampleDecSearch).request.url =
      sampleClient.BaseURL ++ "/rest/api/3/search?jql=" ++ queryEscape "a b" ++
        "&maxResults=" ++ toString (7 : Int)) :=
  ⟨(search_maxResults_clamped sampleClient "a b" 0 sampleDecSearch).1 (Or.inl (by decide)),
   (search_maxResults_clamped sampleClient "a b" 7 sampleDecSearch).2 (by decide) (by decide)⟩

end JiraMCP
namespace JiraMCP

/-- C3: `GetIssue` performs a single GET to `/rest/api/3/issue/<escaped key>`
with no request body, and on success returns the decoded response body
unchanged (also through the `get_issue` handler). -/
theorem getIssue_request_and_passthrough (c : JiraClient) (key : String)
    (dec : String → Except String JiraIssue) :
    (c.GetIssue key dec).request.method = "GET"
  ∧ (c.GetIssue key dec).request.url = c.BaseURL ++ "/rest/api/3/issue/" ++ pathEscape key
  ∧ (c.GetIssue key dec).request.body = none
  ∧ ∀ (resp : HTTPResponse) (iss : JiraIssue), resp.statusCode < 300 →
      dec resp.body = .ok iss →
      (c.GetIssue key dec).respond resp = .ok iss
      ∧ getIssueHandler c ⟨key⟩ dec resp = .ok (ToolResult.structuredIssue iss) := by
  refine ⟨rfl, ?_, rfl, ?_⟩
  · show c.BaseURL ++ issuePath key = _
    rw [issuePath, ← String.append_assoc]
  · intro resp iss hlt hdec
    have hr : (c.GetIssue key dec).respond resp = .ok iss := by
      show respondDecoded "GET" (issuePath key) dec resp = .ok iss
      rw [respondDecoded, if_neg (by omega), hdec]
    refine ⟨hr, ?_⟩
    simp only [getIssueHandler, hr]

/-- C3 witness: a concrete key and a 200 response decoded by a concrete
decoder. -/
theorem getIssue_request_and_passthrough_witness :
    (sampleClient.GetIssue "K 1" sampleDecIssue).respond sampleResp200 = Except.ok sampleIssue
  ∧ getIssueHandler sampleClient ⟨"K 1"⟩ sampleDecIssue sampleResp200 =
      Except.ok (ToolResult.structuredIssue sampleIssue) :=
  (getIssue_request_and_passthrough sampleClient "K 1" sampleDecIssue).2.2.2
    sampleResp200 sampleIssue (by decide) rfl

/-- C4: `AddComment` posts exactly the one-field JSON object
`{"body": text}`; success depends only on the HTTP status (the response
body is never decoded) and the handler then answers the literal text
"ok". -/
theorem addComment_body_and_ok (c : JiraClient) (key text : String) :
    (c.AddComment key text).request.method = "POST"
  ∧ (c.AddComment key text).request.url =
      c.BaseURL ++ "/rest/api/3/issue/" ++ pathEscape key ++ "/comment"
  ∧ (c.AddComment key text).request.body = some (Json.obj [("body", Json.str text)])
  ∧ ∀ resp : HTTPResponse, resp.statusCode < 300 →
      (c.AddComment key text).respond resp = .ok ()
      ∧ addCommentHandler c ⟨key, text⟩ resp = .ok (ToolResult.text "ok") := by
  refine ⟨rfl, ?_, rfl, ?_⟩
  · show c.BaseURL ++ commentPath key = _
    rw [commentPath]
    simp only [String.append_assoc]
  · intro resp hlt
    have hr : (c.AddComment key text).respond resp = .ok () := by
      show respondNoBody "POST" (commentPath key) resp = .ok ()
      rw [respondNoBody, if_neg (by omega)]
    refine ⟨hr, ?_⟩
    simp only [addCommentHandler, hr]

/-- C4 witness: a concrete comment on a 201-style success status. -/
theorem addComment_body_and_ok_witness :
    (sampleClient.AddComment "K 1" "hello world").respond sampleResp200 = Except.ok ()
  ∧ addCommentHandler sampleClient ⟨"K 1", "hello world"⟩ sampleResp200 =
      Except.ok (ToolResult.text "ok") :=
  (addComment_body_and_ok sampleClient "K 1" "hello world").2.2.2 sampleResp200 (by decide)

end JiraMCP
namespace JiraMCP

/-- C5: `CreateIssue` posts to `/rest/api/3/issue` a payload whose
top-level "fields" object carries the project key under `project.key`,
the summary, the description, and the issue type under `issuetype.name`;
on success the decoded created issue is returned unmodified (also
through the `create_issue` handler). -/
theorem createIssue_payload_and_passthrough (c : JiraClient) (pk it sm ds : String)
    (dec : String → Except String JiraIssue) :
    (c.CreateIssue pk it sm ds dec).request.method = "POST"
  ∧ (c.CreateIssue pk it sm ds dec).request.url = c.BaseURL ++ "/rest/api/3/issue"
  ∧ (∃ fields : List (String × Json),
      (c.CreateIssue pk it sm ds dec).request.body = some (Json.obj [("fields", Json.obj fields)])
      ∧ fields.lookup "project" = some (Json.obj [("key", Json.str pk)])
      ∧ fields.lookup "summary" = some (Json.str sm)
      ∧ fields.lookup "description" = some (Json.str ds)
      ∧ fields.lookup "issuetype" = some (Json.obj [("name", Json.str it)]))
  ∧ ∀ (resp : HTTPResponse) (iss : JiraIssue), resp.statusCode < 300 →
      dec resp.body = .ok iss →
      (c.CreateIssue pk it sm ds dec).respond resp = .ok iss
      ∧ createIssueHandler c ⟨pk, it, sm, ds⟩ dec resp = .ok (ToolResult.structuredIssue iss) := by
  refine ⟨rfl, rfl, ?_, ?_⟩
  · exact ⟨[("project", Json.obj [("key", Json.str pk)]), ("summary", Json.str sm),
      ("description", Json.str ds), ("issuetype", Json.obj [("name", Json.str it)])],
      rfl, rfl, rfl, rfl, rfl⟩
  · intro resp iss hlt hdec
    have hr : (c.CreateIssue pk it sm ds dec).respond resp = .ok iss := by
      show respondDecoded "POST" "/rest/api/3/issue" dec resp = .ok iss
      rw [respondDecoded, if_neg (by omega), hdec]
    refine ⟨hr, ?_⟩
    simp only [createIssueHandler, hr]

/-- C5 witness: concrete arguments and a concrete 200 response. -/
theorem createIssue_payload_and_passthrough_witness :
    (sampleClient.CreateIssue "PRJ" "Bug" "title" "details" sampleDecIssue).respond sampleResp200 =
      Except.ok sampleIssue
  ∧ createIssueHandler sampleClient ⟨"PRJ", "Bug", "title", "details"⟩ sampleDecIssue
      sampleResp200 = Except.ok (ToolResult.structuredIssue sampleIssue) :=
  (createIssue_payload_and_passthrough sampleClient "PRJ" "Bug" "title" "details"
    sampleDecIssue).2.2.2 sampleResp200 sampleIssue (by decide) rfl

/-- C9: the "description" key is always present in the outbound "fields"
object, for every description value including the empty string that an
absent optional argument decodes to (`CreateIssueArgs.description`
defaults to ""). -/
theorem createIssue_description_never_omitted (c : JiraClient) (pk it sm ds : String)
    (dec : String → Except String JiraIssue) :
    (∃ fields : List (String × Json),
      (c.CreateIssue pk it sm ds dec).request.body = some (Json.obj [("fields", Json.obj fields)])
      ∧ fields.lookup "description" = some (Json.str ds))
  ∧ (∃ fields : List (String × Json),
      (c.CreateIssue pk it sm ({ projectKey := pk, issueType := it, summary := sm } : CreateIssueArgs).description dec).request.body =
        some (Json.obj [("fields", Json.obj fields)])
      ∧ fields.lookup "description" = some (Json.str "")) := by
  refine ⟨⟨[("project", Json.obj [("key", Json.str pk)]), ("summary", Json.str sm),
      ("description", Json.str ds), ("issuetype", Json.obj [("name", Json.str it)])],
      rfl, rfl⟩, ?_⟩
  exact ⟨[("project", Json.obj [("key", Json.str pk)]), ("summary", Json.str sm),
      ("description", Json.str ""), ("issuetype", Json.obj [("name", Json.str it)])],
      rfl, rfl⟩

end JiraMCP
namespace JiraMCP

theorem remoteErrMsg_contains (method path : String) (resp : HTTPResponse) :
    containsStr (remoteErrMsg method path resp) method
  ∧ containsStr (remoteErrMsg method path resp) path
  ∧ containsStr (remoteErrMsg method path resp) resp.status
  ∧ containsStr (remoteErrMsg method path resp) resp.body := by
  refine ⟨⟨"jira ", " " ++ path ++ " failed: " ++ resp.status ++ " - " ++ resp.body, ?_⟩,
    ⟨"jira " ++ method ++ " ", " failed: " ++ resp.status ++ " - " ++ resp.body, ?_⟩,
    ⟨"jira " ++ method ++ " " ++ path ++ " failed: ", " - " ++ resp.body, ?_⟩,
    ⟨"jira " ++ method ++ " " ++ path ++ " failed: " ++ resp.status ++ " - ", "", ?_⟩⟩ <;>
  simp only [remoteErrMsg, String.append_assoc, String.append_empty]

/-- C2: on each of the four operations, a response with status ≥ 300
yields an error — propagated verbatim by the tool handler — whose
message is `remoteErrMsg` and contains the method, the request path, the
status text and the response body; a status < 300 never produces the
remote error (the result is exactly the decode result, or `ok`). -/
theorem remote_error_iff_status (c : JiraClient) (key jql text pk it sm ds : String)
    (max : Int) (decI decC : String → Except String JiraIssue)
    (decS : String → Except String JiraSearchResult) (resp : HTTPResponse) :
    (300 ≤ resp.statusCode →
      (c.GetIssue key decI).respond resp = .error (remoteErrMsg "GET" (issuePath key) resp)
      ∧ (c.Search jql max decS).respond resp =
          .error (remoteErrMsg "GET" (searchPath jql max) resp)
      ∧ (c.AddComment key text).respond resp =
          .error (remoteErrMsg "POST" (commentPath key) resp)
      ∧ (c.CreateIssue pk it sm ds decC).respond resp =
          .error (remoteErrMsg "POST" "/rest/api/3/issue" resp)
      ∧ getIssueHandler c ⟨key⟩ decI resp = .error (remoteErrMsg "GET" (issuePath key) resp)
      ∧ searchIssuesHandler c ⟨jql, max⟩ decS resp =
          .error (remoteErrMsg "GET" (searchPath jql max) resp)
      ∧ addCommentHandler c ⟨key, text⟩ resp =
          .error (remoteErrMsg "POST" (commentPath key) resp)
      ∧ createIssueHandler c ⟨pk, it, sm, ds⟩ decC resp =
          .error (remoteErrMsg "POST" "/rest/api/3/issue" resp)
      ∧ ∀ method path : String,
          containsStr (remoteErrMsg method path resp) method
          ∧ containsStr (remoteErrMsg method path resp) path
          ∧ containsStr (remoteErrMsg method path resp) resp.status
          ∧ containsStr (remoteErrMsg method path resp) resp.body)
  ∧ (resp.statusCode < 300 →
      (c.GetIssue key decI).respond resp = decI resp.body
      ∧ (c.Search jql max decS).respond resp = decS resp.body
      ∧ (c.AddComment key text).respond resp = .ok ()
      ∧ (c.CreateIssue pk it sm ds decC).respond resp = decC resp.body) := by
  constructor
  · intro h
    have h1 : (c.GetIssue key decI).respond resp =
        .error (remoteErrMsg "GET" (issuePath key) resp) := by
      show respondDecoded "GET" (issuePath key) decI resp = _
      rw [respondDecoded, if_pos h]
    have h2 : (c.Search jql max decS).respond resp =
        .error (remoteErrMsg "GET" (searchPath jql max) resp) := by
      show respondDecoded "GET" (searchPath jql max) decS resp = _
      rw [respondDecoded, if_pos h]
    have h3 : (c.AddComment key text).respond resp =
        .error (remoteErrMsg "POST" (commentPath key) resp) := by
      show respondNoBody "POST" (commentPath key) resp = _
      rw [respondNoBody, if_pos h]
    have h4 : (c.CreateIssue pk it sm ds decC).respond resp =
        .error (remoteErrMsg "POST" "/rest/api/3/issue" resp) := by
      show respondDecoded "POST" "/rest/api/3/issue" decC resp = _
      rw [respondDecoded, if_pos h]
    refine ⟨h1, h2, h3, h4, ?_, ?_, ?_, ?_, fun m p => remoteErrMsg_contains m p resp⟩
    · simp only [getIssueHandler, h1]
    · simp only [searchIssuesHandler, h2]
    · simp only [addCommentHandler, h3]
    · simp only [createIssueHandler, h4]
  · intro h
    refine ⟨?_, ?_, ?_, ?_⟩
    · show respondDecoded "GET" (issuePath key) decI resp = decI resp.body
      rw [respondDecoded, if_neg (by omega)]
    · show respondDecoded "GET" (searchPath jql max) decS resp = decS resp.body
      rw [respondDecoded, if_neg (by omega)]
    · show respondNoBody "POST" (commentPath key) resp = .ok ()
      rw [respondNoBody, if_neg (by omega)]
    · show respondDecoded "POST" "/rest/api/3/issue" decC resp = decC resp.body
      rw [respondDecoded, if_neg (by omega)]

/-- C2 witness: a concrete 404 response on all four operations. -/
theorem remote_error_iff_status_witness :
    (sampleClient.GetIssue "K 1" sampleDecIssue).respond sampleResp404 =
      Except.error (remoteErrMsg "GET" (issuePath "K 1") sampleResp404)
  ∧ (sampleClient.Search "q" 7 sampleDecSearch).respond sampleResp404 =
      Except.error (remoteErrMsg "GET" (searchPath "q" 7) sampleResp404)
  ∧ (sampleClient.AddComment "K 1" "hi").respond sampleResp404 =
      Except.error (remoteErrMsg "POST" (commentPath "K 1") sampleResp404)
  ∧ (sampleClient.CreateIssue "P" "Bug" "s" "d" sampleDecIssue).respond sampleResp404 =
      Except.error (remoteErrMsg "POST" "/rest/api/3/issue" sampleResp404) :=
  let h := (remote_error_iff_status sampleClient "K 1" "q" "hi" "P" "Bug" "s" "d" 7
    sampleDecIssue sampleDecIssue sampleDecSearch sampleResp404).1 (by decide)
  ⟨h.1, h.2.1, h.2.2.1, h.2.2.2.1⟩

end JiraMCP
namespace JiraMCP

theorem NewJiraClientFromEnv_ok_inv (validURI : String → Bool) (u em tok : String)
    (c : JiraClient) (h : NewJiraClientFromEnv validURI u em tok = .ok c) :
    c.BaseURL = trimRightSlash u
    ∧ c.Auth = "Basic " ++ base64Encode (em ++ ":" ++ tok)
    ∧ c.timeoutSeconds = 30 := by
  unfold NewJiraClientFromEnv at h
  split at h
  · cases h
  · split at h
    · cases h
    · cases h
      exact ⟨rfl, rfl, rfl⟩

/-- C7: every request built by any of the four operations of a client
constructed from the environment carries the basic authorization value
computed once at construction, the Accept JSON header, and the client's
30-second timeout; the two bodied operations (add comment, create
issue) additionally carry the JSON content-type header, which bodiless
requests lack. -/
theorem request_invariants (validURI : String → Bool) (u em tok : String) (c : JiraClient)
    (hc : NewJiraClientFromEnv validURI u em tok = .ok c)
    (key jql text pk it sm ds : String) (max : Int)
    (decI decC : String → Except String JiraIssue)
    (decS : String → Except String JiraSearchResult) :
    requestInvariant ("Basic " ++ base64Encode (em ++ ":" ++ tok)) (c.GetIssue key decI).request
  ∧ requestInvariant ("Basic " ++ base64Encode (em ++ ":" ++ tok)) (c.Search jql max decS).request
  ∧ requestInvariant ("Basic " ++ base64Encode (em ++ ":" ++ tok)) (c.AddComment key text).request
  ∧ requestInvariant ("Basic " ++ base64Encode (em ++ ":" ++ tok))
      (c.CreateIssue pk it sm ds decC).request
  ∧ (c.GetIssue key decI).request.body = none
  ∧ (c.Search jql max decS).request.body = none
  ∧ (c.AddComment key text).request.body.isSome = true
  ∧ (c.CreateIssue pk it sm ds decC).request.body.isSome = true := by
  obtain ⟨hB, hA, hT⟩ := NewJiraClientFromEnv_ok_inv validURI u em tok c hc
  refine ⟨?_, ?_, ?_, ?_, rfl, rfl, rfl, rfl⟩ <;>
    exact ⟨by simp +decide [JiraClient.GetIssue, JiraClient.Search, JiraClient.AddComment,
        JiraClient.CreateIssue, buildRequest, List.lookup, hA],
      by simp +decide [JiraClient.GetIssue, JiraClient.Search, JiraClient.AddComment,
        JiraClient.CreateIssue, buildRequest, List.lookup],
      by simp [JiraClient.GetIssue, JiraClient.Search, JiraClient.AddComment,
        JiraClient.CreateIssue, buildRequest, hT],
      by simp +decide [JiraClient.GetIssue, JiraClient.Search, JiraClient.AddComment,
        JiraClient.CreateIssue, buildRequest, List.lookup]⟩

/-- C7 witness: a concretely constructed client and concrete arguments. -/
theorem request_invariants_witness :
    (NewJiraClientFromEnv (fun _ => true) "https://x.net/" "me@x.net" "tk" =
      Except.ok { BaseURL := "https://x.net", Auth := "Basic " ++ base64Encode "me@x.net:tk",
                  timeoutSeconds := 30 })
  ∧ requestInvariant ("Basic " ++ base64Encode ("me@x.net" ++ ":" ++ "tk"))
      (JiraClient.GetIssue { BaseURL := "https://x.net", Auth := "Basic " ++ base64Encode "me@x.net:tk", timeoutSeconds := 30 } "K-9" sampleDecIssue).request :=
  ⟨rfl, (request_invariants (fun _ => true) "https://x.net/" "me@x.net" "tk"
      { BaseURL := "https://x.net", Auth := "Basic " ++ base64Encode "me@x.net:tk",
        timeoutSeconds := 30 } rfl "K-9" "q" "b" "P" "T" "S" "D" 5 sampleDecIssue
      sampleDecIssue sampleDecSearch).1⟩

/-- C8: each of the four tool handlers forwards the client error to the
framework unchanged. -/
theorem handlers_propagate_errors (c : JiraClient) (key jql text pk it sm ds : String)
    (max : Int) (decI decC : String → Except String JiraIssue)
    (decS : String → Except String JiraSearchResult) (resp : HTTPResponse) (e : String) :
    ((c.GetIssue key decI).respond resp = .error e →
      getIssueHandler c ⟨key⟩ decI resp = .error e)
  ∧ ((c.Search jql max decS).respond resp = .error e →
      searchIssuesHandler c ⟨jql, max⟩ decS resp = .error e)
  ∧ ((c.AddComment key text).respond resp = .error e →
      addCommentHandler c ⟨key, text⟩ resp = .error e)
  ∧ ((c.CreateIssue pk it sm ds decC).respond resp = .error e →
      createIssueHandler c ⟨pk, it, sm, ds⟩ decC resp = .error e) := by
  refine ⟨fun h => ?_, fun h => ?_, fun h => ?_, fun h => ?_⟩
  · simp only [getIssueHandler, h]
  · simp only [searchIssuesHandler, h]
  · simp only [addCommentHandler, h]
  · simp only [createIssueHandler, h]

/-- C8 witness: a concrete 404 error flows through each of the four
handlers verbatim. -/
theorem handlers_propagate_errors_witness :
    getIssueHandler sampleClient ⟨"K 1"⟩ sampleDecIssue sampleResp404 =
      Except.error (remoteErrMsg "GET" (issuePath "K 1") sampleResp404)
  ∧ searchIssuesHandler sampleClient ⟨"q", 7⟩ sampleDecSearch sampleResp404 =
      Except.error (remoteErrMsg "GET" (searchPath "q" 7) sampleResp404)
  ∧ addCommentHandler sampleClient ⟨"K 1", "hi"⟩ sampleResp404 =
      Except.error (remoteErrMsg "POST" (commentPath "K 1") sampleResp404)
  ∧ createIssueHandler sampleClient ⟨"P", "T", "S", "D"⟩ sampleDecIssue sampleResp404 =
      Except.error (remoteErrMsg "POST" "/rest/api/3/issue" sampleResp404) :=
  ⟨(handlers_propagate_errors sampleClient "K 1" "q" "hi" "P" "T" "S" "D" 7 sampleDecIssue
      sampleDecIssue sampleDecSearch sampleResp404
      (remoteErrMsg "GET" (issuePath "K 1") sampleResp404)).1 rfl,
   (handlers_propagate_errors sampleClient "K 1" "q" "hi" "P" "T" "S" "D" 7 sampleDecIssue
      sampleDecIssue sampleDecSearch sampleResp404
      (remoteErrMsg "GET" (searchPath "q" 7) sampleResp404)).2.1 rfl,
   (handlers_propagate_errors sampleClient "K 1" "q" "hi" "P" "T" "S" "D" 7 sampleDecIssue
      sampleDecIssue sampleDecSearch sampleResp404
      (remoteErrMsg "POST" (commentPath "K 1") sampleResp404)).2.2.1 rfl,
   (handlers_propagate_errors sampleClient "K 1" "q" "hi" "P" "T" "S" "D" 7 sampleDecIssue
      sampleDecIssue sampleDecSearch sampleResp404
      (remoteErrMsg "POST" "/rest/api/3/issue" sampleResp404)).2.2.2 rfl⟩

end JiraMCP
namespace JiraMCP

theorem NewJiraClientFromEnv_error_iff (validURI : String → Bool) (u em tok : String) :
    (∃ e, NewJiraClientFromEnv validURI u em tok = .error e) ↔
      (trimRightSlash u = "" ∨ em = "" ∨ tok = "" ∨ validURI (trimRightSlash u) = false) := by
  by_cases h1 : trimRightSlash u = "" ∨ em = "" ∨ tok = ""
  · rw [NewJiraClientFromEnv, if_pos h1]
    exact ⟨fun _ => by tauto, fun _ => ⟨missingConfigMsg, rfl⟩⟩
  · rw [NewJiraClientFromEnv, if_neg h1]
    by_cases h2 : validURI (trimRightSlash u) = true
    · rw [if_neg (fun hn => hn h2)]
      constructor
      · rintro ⟨e, he⟩
        cases he
      · intro hr
        exfalso
        rcases hr with h3 | h3 | h3 | h3
        · exact h1 (Or.inl h3)
        · exact h1 (Or.inr (Or.inl h3))
        · exact h1 (Or.inr (Or.inr h3))
        · rw [h2] at h3
          cases h3
    · rw [if_pos h2]
      refine ⟨fun _ => Or.inr (Or.inr (Or.inr ?_)), fun _ => ⟨"invalid JIRA_INSTANCE_URL", rfl⟩⟩
      revert h2
      cases validURI (trimRightSlash u) <;> simp

/-- C6: client construction fails — and `main` dies before ever serving
tools — precisely when the trailing-slash-stripped base URL, the email,
or the token is empty, or the stripped base URL is not a valid request
URI; in every other case construction succeeds and the server serves. -/
theorem config_gate (validURI : String → Bool) (u em tok : String) :
    ((∃ e, NewJiraClientFromEnv validURI u em tok = .error e) ↔
      (trimRightSlash u = "" ∨ em = "" ∨ tok = "" ∨ validURI (trimRightSlash u) = false))
  ∧ ((∃ e, mainStartup validURI u em tok = .fatalInit e) ↔
      (∃ e, NewJiraClientFromEnv validURI u em tok = .error e))
  ∧ ((∃ c, mainStartup validURI u em tok = .serve c) ↔
      ¬ (trimRightSlash u = "" ∨ em = "" ∨ tok = "" ∨ validURI (trimRightSlash u) = false)) := by
  have herr := NewJiraClientFromEnv_error_iff validURI u em tok
  refine ⟨herr, ?_, ?_⟩
  · unfold mainStartup
    cases hN : NewJiraClientFromEnv validURI u em tok with
    | error e => exact ⟨fun _ => ⟨e, rfl⟩, fun _ => ⟨"init error: " ++ e, rfl⟩⟩
    | ok c =>
      constructor
      · rintro ⟨e, he⟩
        cases he
      · rintro ⟨e, he⟩
        cases he
  · constructor
    · rintro ⟨c, hc⟩ hconds
      rcases herr.mpr hconds with ⟨e, he⟩
      unfold mainStartup at hc
      rw [he] at hc
      cases hc
    · intro hn
      have hne : ¬ ∃ e, NewJiraClientFromEnv validURI u em tok = .error e :=
        fun hx => hn (herr.mp hx)
      unfold mainStartup
      cases hN : NewJiraClientFromEnv validURI u em tok with
      | error e => exact absurd ⟨e, hN⟩ hne
      | ok c => exact ⟨c, rfl⟩

theorem dropWhile_head_not (p : Char → Bool) : ∀ (l : List Char) (c : Char),
    (l.dropWhile p).head? = some c → p c = false
  | [], c, h => by cases h
  | a :: l, c, h => by
    rw [List.dropWhile_cons] at h
    split at h
    · exact dropWhile_head_not p l c h
    · next hpa =>
      rw [List.head?_cons, Option.some.injEq] at h
      rw [← h]
      simpa using hpa

/-- C10: construction strips every trailing slash, not just one: a base
URL consisting only of slashes strips to the empty string and fails with
the missing-configuration error, and no stripped value ends in '/'. -/
theorem trimRightSlash_strips_all (validURI : String → Bool) (s em tok : String) :
    ((∀ c ∈ s.toList, c = '/') →
      trimRightSlash s = ""
      ∧ NewJiraClientFromEnv validURI s em tok = .error missingConfigMsg)
  ∧ (trimRightSlash s).toList.getLast? ≠ some '/' := by
  constructor
  · intro h
    have hempty : trimRightSlash s = "" := by
      unfold trimRightSlash
      have hnil : s.toList.reverse.dropWhile (· == '/') = [] := by
        rw [List.dropWhile_eq_nil_iff]
        intro x hx
        simp [h x (List.mem_reverse.mp hx)]
      rw [hnil]
      rfl
    refine ⟨hempty, ?_⟩
    rw [NewJiraClientFromEnv, if_pos (Or.inl hempty)]
  · intro hlast
    have hrev : ((s.toList.reverse.dropWhile (· == '/')).reverse).getLast? = some '/' := hlast
    rw [List.getLast?_reverse] at hrev
    have hfalse := dropWhile_head_not (· == '/') _ _ hrev
    simp at hfalse

/-- C10 witness: the all-slash base URL "///" strips to empty and is
rejected as missing configuration. -/
theorem trimRightSlash_strips_all_witness :
    trimRightSlash "///" = ""
    ∧ NewJiraClientFromEnv (fun _ => true) "///" "me@x.net" "tk" =
        Except.error missingConfigMsg :=
  (trimRightSlash_strips_all (fun _ => true) "///" "me@x.net" "tk").1 (by decide)

end JiraMCP
